import Mathlib

/-!
Shallow embedding of the YubiHSM client core (client facade, session
manager, and mock-HSM command handlers) for checking the natural-language
specification against the source.

Bytes are modelled as `Nat` (values < 256 where the wire demands it),
byte strings as `List Nat`.  Multi-byte integers are big-endian per the
wire codec.  Fallible paths return `Except`/`Option`; Rust panics are an
explicit constructor of the handler result type.  External cryptographic
primitives (HMAC, Ed25519, the SCP03 KDF) are parameters of the
definitions that use them, since they live in external crates, not in
this repository.
-/

namespace Yubihsm

/-- Big-endian interpretation of a byte list (wire codec §: fixed-width
integers encode as raw big-endian bytes). -/
def beBytesToNat (l : List Nat) : Nat :=
  l.foldl (fun acc b => acc * 256 + b) 0

/-- Big-endian 2-byte encoding of a `u16` value. -/
def u16bytes (n : Nat) : List Nat :=
  [n / 256 % 256, n % 256]

/-- Device-side error kinds (single byte on the wire, `HsmErrorKind`). -/
inductive HsmErrorKind where
  | InvalidCommand
  | InvalidData
  | InvalidSession
  | AuthFail
  | SessionsFull
  | SessionFailed
  | StorageFailed
  | WrongLength
  | InsufficientPermissions
  | LogFull
  | ObjectNotFound
  | InvalidId
  | SshCaConstraintViolation
  | InvalidOtp
  | DemoMode
  | CommandUnexecuted
  deriving DecidableEq, Repr

/-- Object types stored in the HSM (`object::Type`). -/
inductive ObjType where
  | Opaque
  | AuthenticationKey
  | AsymmetricKey
  | WrapKey
  | HmacKey
  | Template
  | OtpAeadKey
  deriving DecidableEq, Repr, BEq

/-- HMAC algorithm tags (`HmacAlg`); the mock HSM only implements SHA256. -/
inductive HmacAlg where
  | SHA1
  | SHA256
  | SHA384
  | SHA512
  deriving DecidableEq, Repr

/-- Algorithm-specific key material held by a mock-HSM object
(`mockhsm::object::Payload`), keeping only the variants the embedded
handlers inspect. -/
inductive Payload where
  | hmacKey (alg : HmacAlg) (key : List Nat)
  | ed25519KeyPair (seed : List Nat)
  | other (bytes : List Nat)
  deriving DecidableEq, Repr

/-- Attributes common to every stored object (`object::Info`). -/
structure ObjectInfo where
  object_id : Nat
  object_type : ObjType
  algorithm : Nat
  label : List Nat
  domains : Nat
  capabilities : Nat
  delegated_capabilities : Nat
  sequence : Nat
  deriving DecidableEq, Repr

/-- A stored object: its attributes plus key material. -/
structure HsmObject where
  info : ObjectInfo
  payload : Payload
  deriving DecidableEq, Repr

/-- The mock HSM's object store (`Objects`), keyed by `(id, type)`. -/
abbrev Objects := List HsmObject

/-- Look up an object by id and type (`Objects::get`). -/
def Objects.get (st : Objects) (id : Nat) (ty : ObjType) : Option HsmObject :=
  List.find? (fun o => o.info.object_id == id && o.info.object_type == ty) st

/-- Remove an object by id and type (`Objects::remove`): `some` of the
store without the object when it was present, `none` when absent. -/
def Objects.remove (st : Objects) (id : Nat) (ty : ObjType) : Option Objects :=
  match Objects.get st id ty with
  | some _ => some (List.filter (fun o => !(o.info.object_id == id && o.info.object_type == ty)) st)
  | none => none

/-- A typed response message from a mock-HSM handler (`response::Message`):
either a serialized success payload or a single-byte device error. -/
inductive RespMessage where
  | success (data : List Nat)
  | deviceError (kind : HsmErrorKind)
  deriving DecidableEq, Repr

/-- Result of running a mock-HSM handler on wire input: a response
message, or a Rust panic (the handlers call `unwrap_or_else` with an
aborting closure on parse failures). -/
inductive HResult where
  | resp (m : RespMessage)
  | panicked (msg : String)
  deriving DecidableEq, Repr

/-- Functional model of `subtle::ConstantTimeEq` on byte strings: true
exactly when the two strings are equal (unequal lengths compare false).
The timing aspect of the primitive is outside the embedding; definitions
going through `ct_eq` mark the places where the source uses the
constant-time comparison. -/
def ct_eq (a b : List Nat) : Bool :=
  a == b

/-- Modelled from the spec: the wire encoding of `object::Type` (the
`object` module is not under `src/`); the type serializes as a single
byte, unknown values deserialize to an error (`InvalidTag`). -/
def objTypeOfByte : Nat → Option ObjType
  | 1 => some ObjType.Opaque
  | 2 => some ObjType.AuthenticationKey
  | 3 => some ObjType.AsymmetricKey
  | 4 => some ObjType.WrapKey
  | 5 => some ObjType.HmacKey
  | 6 => some ObjType.Template
  | 7 => some ObjType.OtpAeadKey
  | _ => none

/-- Modelled from the spec: validity of a serialized `Algorithm` byte
(the `algorithm` module is not under `src/`); the algorithm space is a
fixed ~50-member enum serialized as one byte, unknown values deserialize
to an error. -/
def algValid (b : Nat) : Bool :=
  1 ≤ b && b ≤ 54

/-- `DeleteObjectCommand`: `object_id : u16`, `object_type : u8` enum;
deserialization fails on short input, an unknown type byte, or trailing
bytes. -/
structure DeleteObjectCommand where
  object_id : Nat
  object_type : ObjType
  deriving DecidableEq, Repr

/-- Wire-codec deserializer for `DeleteObjectCommand`. -/
def parseDeleteObject (d : List Nat) : Option DeleteObjectCommand :=
  match d with
  | [a, b, t] =>
    match objTypeOfByte t with
    | some ty => some ⟨beBytesToNat [a, b], ty⟩
    | none => none
  | _ => none

/-- `ImportWrappedCommand`: `wrap_key_id : u16`, 13-byte AES-CCM nonce,
ciphertext = rest of buffer. -/
structure ImportWrappedCommand where
  wrap_key_id : Nat
  nonce : List Nat
  ciphertext : List Nat
  deriving DecidableEq, Repr

/-- Wire-codec deserializer for `ImportWrappedCommand`. -/
def parseImportWrapped (d : List Nat) : Option ImportWrappedCommand :=
  match d with
  | a :: b :: rest =>
    if rest.length < 13 then none
    else some ⟨beBytesToNat [a, b], rest.take 13, rest.drop 13⟩
  | _ => none

/-- `SignDataEddsaCommand`: `key_id : u16`, data = rest of buffer. -/
structure SignDataEddsaCommand where
  key_id : Nat
  data : List Nat
  deriving DecidableEq, Repr

/-- Wire-codec deserializer for `SignDataEddsaCommand`. -/
def parseSignEddsa (d : List Nat) : Option SignDataEddsaCommand :=
  match d with
  | a :: b :: rest => some ⟨beBytesToNat [a, b], rest⟩
  | _ => none

/-- `SignHmacCommand`: `key_id : u16`, data = rest of buffer. -/
structure SignHmacCommand where
  key_id : Nat
  data : List Nat
  deriving DecidableEq, Repr

/-- Wire-codec deserializer for `SignHmacCommand`. -/
def parseSignHmac (d : List Nat) : Option SignHmacCommand :=
  match d with
  | a :: b :: rest => some ⟨beBytesToNat [a, b], rest⟩
  | _ => none

/-- `VerifyHMACCommand` as the mock HSM sees it: `key_id : u16` followed
by the `tag` field, which — because of the serde parser quirk noted in
the source — greedily consumes the rest of the buffer (tag bytes then
message bytes). -/
structure VerifyHmacCommand where
  key_id : Nat
  tag : List Nat
  deriving DecidableEq, Repr

/-- Wire-codec deserializer for `VerifyHMACCommand` (mock-HSM side). -/
def parseVerifyHmac (d : List Nat) : Option VerifyHmacCommand :=
  match d with
  | a :: b :: rest => some ⟨beBytesToNat [a, b], rest⟩
  | _ => none

/-- `GenerateKeyParams`: `key_id : u16`, 40-byte label, `domains : u16`,
`capabilities : u64`, `algorithm : u8` — 53 bytes in declaration order. -/
structure GenerateKeyParams where
  key_id : Nat
  label : List Nat
  domains : Nat
  capabilities : Nat
  algorithm : Nat
  deriving DecidableEq, Repr

/-- Wire-codec deserializer for `GenerateKeyParams` (53 bytes exactly). -/
def parseGenKeyParams (d : List Nat) : Option GenerateKeyParams :=
  if d.length = 53 && algValid (d.getD 52 0) then
    some ⟨beBytesToNat (d.take 2), (d.drop 2).take 40,
      beBytesToNat ((d.drop 42).take 2), beBytesToNat ((d.drop 44).take 8),
      d.getD 52 0⟩
  else none

/-- Wire-codec deserializer for `GenAsymmetricKeyCommand` (a newtype
around `GenerateKeyParams`). -/
def parseGenAsymmetricKey (d : List Nat) : Option GenerateKeyParams :=
  parseGenKeyParams d

/-- `GenWrapKeyCommand`: `params` then `delegated_capabilities : u64`,
61 bytes in declaration order. -/
structure GenWrapKeyCommand where
  params : GenerateKeyParams
  delegated_capabilities : Nat
  deriving DecidableEq, Repr

/-- Wire-codec deserializer for `GenWrapKeyCommand` (61 bytes exactly). -/
def parseGenWrapKey (d : List Nat) : Option GenWrapKeyCommand :=
  if d.length = 61 then
    match parseGenKeyParams (d.take 53) with
    | some params => some ⟨params, beBytesToNat (d.drop 53)⟩
    | none => none
  else none

/-- Serialization of `object::Type` as its wire byte (inverse of
`objTypeOfByte`). -/
def objTypeToByte : ObjType → Nat
  | ObjType.Opaque => 1
  | ObjType.AuthenticationKey => 2
  | ObjType.AsymmetricKey => 3
  | ObjType.WrapKey => 4
  | ObjType.HmacKey => 5
  | ObjType.Template => 6
  | ObjType.OtpAeadKey => 7

/-- Modelled from the spec: the id the object store picks for a creation
request with id 0 (`Objects` internals are not under `src/`): a fresh id,
i.e. one not currently used for the requested type. -/
def Objects.nextAvailableId (st : Objects) (ty : ObjType) : Nat :=
  (((List.range (st.length + 2)).drop 1).find?
    (fun n => (Objects.get st n ty).isNone)).getD 1

/-- Modelled from the spec: `Objects::generate` (the mock-HSM object
store is not under `src/`): "the simulator chooses an id if the request
id is 0, otherwise uses the requested id, rejecting collisions with
`InvalidData`".  Returns the chosen id and the extended store, or the
device error on an `(id, type)` collision. -/
def Objects.generate (st : Objects) (id : Nat) (ty : ObjType) (alg : Nat)
    (label : List Nat) (caps deleg doms : Nat) :
    Except HsmErrorKind (Nat × Objects) :=
  let chosen := if id = 0 then Objects.nextAvailableId st ty else id
  if (Objects.get st chosen ty).isSome then Except.error HsmErrorKind.InvalidData
  else Except.ok (chosen,
    st ++ [⟨⟨chosen, ty, alg, label, doms, caps, deleg, 0⟩, Payload.other []⟩])

/-- Mock-HSM `delete_object` handler: parse failures abort (the source
calls `unwrap_or_else` with an aborting closure); a missing object yields
device error `ObjectNotFound`; otherwise the object is removed and the
empty `DeleteObjectResponse` returned. -/
def mock_delete_object (st : Objects) (cmd_data : List Nat) : HResult × Objects :=
  match parseDeleteObject cmd_data with
  | none => (HResult.panicked "error parsing Code::DeleteObject", st)
  | some command =>
    match Objects.remove st command.object_id command.object_type with
    | some st2 => (HResult.resp (RespMessage.success []), st2)
    | none => (HResult.resp (RespMessage.deviceError HsmErrorKind.ObjectNotFound), st)

/-- Mock-HSM `import_wrapped` handler, parameterized by the AES-CCM
unwrap operation of the object store (external crypto not under `src/`):
parse failures abort; an unwrap failure yields device error
`InvalidCommand`; otherwise the imported object's type and id are
returned (serialized as type byte then id). -/
def mock_import_wrapped
    (unwrapFn : Nat → List Nat → List Nat → Except String (ObjType × Nat × Objects))
    (st : Objects) (cmd_data : List Nat) : HResult × Objects :=
  match parseImportWrapped cmd_data with
  | none => (HResult.panicked "error parsing Code::ImportWrapped", st)
  | some command =>
    match unwrapFn command.wrap_key_id command.nonce command.ciphertext with
    | Except.ok (ty, id, st2) =>
      (HResult.resp (RespMessage.success (objTypeToByte ty :: u16bytes id)), st2)
    | Except.error _ =>
      (HResult.resp (RespMessage.deviceError HsmErrorKind.InvalidCommand), st)

/-- Mock-HSM `sign_eddsa` handler, parameterized by the Ed25519 signing
primitive (the `ring` crate, external): parse failures abort; a missing
key yields `ObjectNotFound`; a non-Ed25519 payload yields
`InvalidCommand`; otherwise the 64-byte signature is returned. -/
def mock_sign_eddsa (edSign : List Nat → List Nat → List Nat)
    (st : Objects) (cmd_data : List Nat) : HResult :=
  match parseSignEddsa cmd_data with
  | none => HResult.panicked "error parsing Code::SignDataEdDSA"
  | some command =>
    match Objects.get st command.key_id ObjType.AsymmetricKey with
    | some obj =>
      match obj.payload with
      | Payload.ed25519KeyPair seed =>
        HResult.resp (RespMessage.success (edSign seed command.data))
      | _ => HResult.resp (RespMessage.deviceError HsmErrorKind.InvalidCommand)
    | none => HResult.resp (RespMessage.deviceError HsmErrorKind.ObjectNotFound)

/-- Mock-HSM `gen_asymmetric_key` handler: parse failures abort;
otherwise the store's `generate` is invoked (its result is not
inspected — on a store-level rejection the store is left unchanged) and
the response unconditionally echoes the requested key id. -/
def mock_gen_asymmetric_key (st : Objects) (cmd_data : List Nat) : HResult × Objects :=
  match parseGenAsymmetricKey cmd_data with
  | none => (HResult.panicked "error parsing Code::GenAsymmetricKey", st)
  | some command =>
    let st2 := match Objects.generate st command.key_id ObjType.AsymmetricKey
        command.algorithm command.label command.capabilities 0 command.domains with
      | Except.ok (_, s) => s
      | Except.error _ => st
    (HResult.resp (RespMessage.success (u16bytes command.key_id)), st2)

/-- Mock-HSM `gen_wrap_key` handler: parse failures abort; the store's
`generate` is invoked with the delegated capabilities and the response
unconditionally echoes the requested key id. -/
def mock_gen_wrap_key (st : Objects) (cmd_data : List Nat) : HResult × Objects :=
  match parseGenWrapKey cmd_data with
  | none => (HResult.panicked "error parsing Code::GenWrapKey", st)
  | some command =>
    let st2 := match Objects.generate st command.params.key_id ObjType.WrapKey
        command.params.algorithm command.params.label command.params.capabilities
        command.delegated_capabilities command.params.domains with
      | Except.ok (_, s) => s
      | Except.error _ => st
    (HResult.resp (RespMessage.success (u16bytes command.params.key_id)), st2)

/-- Mock-HSM `echo` handler: the response payload is exactly the command
data. -/
def mock_echo (cmd_data : List Nat) : RespMessage :=
  RespMessage.success cmd_data

/-- Mock-HSM `sign_hmac` handler, parameterized by the HMAC primitive
(`hmac` crate, external; key and message to tag): parse failures abort; a
missing key yields `ObjectNotFound`; a non-HMAC payload yields
`InvalidCommand`; an HMAC key of an algorithm other than SHA-256 trips
the source's `assert_eq!` and aborts; otherwise the tag over the command
data is returned. -/
def mock_sign_hmac (hmac : List Nat → List Nat → List Nat)
    (st : Objects) (cmd_data : List Nat) : HResult :=
  match parseSignHmac cmd_data with
  | none => HResult.panicked "error parsing Code::HMACData"
  | some command =>
    match Objects.get st command.key_id ObjType.HmacKey with
    | some obj =>
      match obj.payload with
      | Payload.hmacKey alg key =>
        if alg = HmacAlg.SHA256 then
          HResult.resp (RespMessage.success (hmac key command.data))
        else HResult.panicked "assertion failed: alg == HmacAlg::SHA256"
      | _ => HResult.resp (RespMessage.deviceError HsmErrorKind.InvalidCommand)
    | none => HResult.resp (RespMessage.deviceError HsmErrorKind.ObjectNotFound)

/-- Mock-HSM `verify_hmac` handler: parse failures abort; a missing key
yields `ObjectNotFound`; a non-HMAC payload yields `InvalidCommand`; a
non-SHA-256 HMAC key trips `assert_eq!` and aborts.  Because of the serde
quirk everything after the key id lands in the `tag` field: the handler
recomputes the tag over `data[32..]` (the slice aborts when fewer than 32
bytes arrived), compares it constant-time with `data[..32]`, and responds
with the single verification byte (1 = match, 0 = mismatch). -/
def mock_verify_hmac (hmac : List Nat → List Nat → List Nat)
    (st : Objects) (cmd_data : List Nat) : HResult :=
  match parseVerifyHmac cmd_data with
  | none => HResult.panicked "error parsing Code::HMACData"
  | some command =>
    match Objects.get st command.key_id ObjType.HmacKey with
    | some obj =>
      match obj.payload with
      | Payload.hmacKey alg key =>
        if alg = HmacAlg.SHA256 then
          if command.tag.length < 32 then
            HResult.panicked "slice index out of range"
          else
            let tag := hmac key (command.tag.drop 32)
            let is_ok : Nat := if ct_eq tag (command.tag.take 32) then 1 else 0
            HResult.resp (RespMessage.success [is_ok])
        else HResult.panicked "assertion failed: alg == HmacAlg::SHA256"
      | _ => HResult.resp (RespMessage.deviceError HsmErrorKind.InvalidCommand)
    | none => HResult.resp (RespMessage.deviceError HsmErrorKind.ObjectNotFound)

/-- Filters accepted by `list_objects` (`Filter`). -/
inductive ObjFilter where
  | algorithm (a : Nat)
  | capabilities (c : Nat)
  | domains (d : Nat)
  | label (l : List Nat)
  | id (i : Nat)
  | type (t : ObjType)
  deriving DecidableEq, Repr

/-- Bitfield containment as used by the bitflags `contains` method: every
bit of `other` is set in `self`. -/
def bitsContains (self other : Nat) : Bool :=
  other &&& self == other

/-- A single filter's predicate on an object, matching the source's
`match filter` arms. -/
def filterMatches (o : HsmObject) : ObjFilter → Bool
  | ObjFilter.algorithm a => o.info.algorithm == a
  | ObjFilter.capabilities c => bitsContains o.info.capabilities c
  | ObjFilter.domains dm => bitsContains o.info.domains dm
  | ObjFilter.label l => o.info.label == l
  | ObjFilter.id i => o.info.object_id == i
  | ObjFilter.type t => o.info.object_type == t

/-- An entry of the `ListObjects` response (`ListObjectsEntry`). -/
structure ListObjectsEntry where
  object_id : Nat
  object_type : ObjType
  sequence : Nat
  deriving DecidableEq, Repr

/-- The response entry derived from a stored object. -/
def entryOfObject (o : HsmObject) : ListObjectsEntry :=
  ⟨o.info.object_id, o.info.object_type, o.info.sequence⟩

/-- Mock-HSM `list_objects` handler over the already-deserialized filter
list: keeps every object when no filters were given and otherwise those
satisfying all filters, mapping each to its entry; the store is returned
untouched (the handler takes it by shared reference). -/
def mock_list_objects (st : Objects) (filters : List ObjFilter) :
    List ListObjectsEntry × Objects :=
  ((st.filter (fun o =>
      if filters.isEmpty then true
      else filters.all (fun f => filterMatches o f))).map entryOfObject, st)

/-- Session-level error kinds (`SessionErrorKind`). -/
inductive SessionErrorKind where
  | AuthFailed
  | ProtocolError
  | ResponseError
  | TimeoutError
  | CreateFailed
  | VerifyFailed
  deriving DecidableEq, Repr

/-- Sessions expire after 30 seconds (`SESSION_INACTIVITY_TIMEOUT`);
instants and durations are modelled in milliseconds. -/
def SESSION_INACTIVITY_TIMEOUT : Nat := 30000

/-- Safety skew subtracted from the timeout (`TIMEOUT_SKEW_INTERVAL`). -/
def TIMEOUT_SKEW_INTERVAL : Nat := 1000

/-- The session state the manager threads through `send_command`: the
session id and the instant of the last command
(`last_command_timestamp`). -/
structure SessionState where
  id : Nat
  last_command_timestamp : Nat
  deriving DecidableEq, Repr

/-- A parsed response frame as `send_command` sees it: the raw response
code byte and the payload. -/
structure RespFrame where
  code : Nat
  data : List Nat
  deriving DecidableEq, Repr

/-- A response frame is a device error iff its code byte is the
`DeviceError` opcode (low 7 bits all set). -/
def RespFrame.is_err (r : RespFrame) : Bool :=
  r.code % 128 == 127

/-- The command code a success response frame acknowledges (code byte
with the MSB cleared). -/
def RespFrame.command (r : RespFrame) : Nat :=
  r.code % 128

/-- Outcome of one `Session::send_command` call: the result, the
resulting session state, and whether the connector was contacted. -/
structure SendOutcome where
  result : Except SessionErrorKind RespFrame
  session : SessionState
  contacted : Bool
  deriving Repr

/-- Embedding of `Session::send_command`.  `now` is the current instant;
`conn` is what the connector round trip plus response parse would yield
(`none` models a connector or parse failure).  Mirrors the source order:
the inactivity check happens before any connector traffic and fails with
`TimeoutError` leaving the state untouched; after a parsed round trip the
timestamp is unconditionally advanced, then device errors and command
code mismatches are rejected. -/
def SessionState.send_command (s : SessionState) (now : Nat) (cmdType : Nat)
    (conn : Option RespFrame) : SendOutcome :=
  let time_since_last_command := now - s.last_command_timestamp
  if SESSION_INACTIVITY_TIMEOUT - TIMEOUT_SKEW_INTERVAL < time_since_last_command then
    ⟨Except.error SessionErrorKind.TimeoutError, s, false⟩
  else
    match conn with
    | none => ⟨Except.error SessionErrorKind.ProtocolError, s, true⟩
    | some response =>
      let s2 : SessionState := { s with last_command_timestamp := now }
      if response.is_err then
        ⟨Except.error SessionErrorKind.ResponseError, s2, true⟩
      else if response.command ≠ cmdType then
        ⟨Except.error SessionErrorKind.ProtocolError, s2, true⟩
      else
        ⟨Except.ok response, s2, true⟩

/-- The `CreateSession` response received from the HSM: card challenge
and card cryptogram. -/
structure CreateSessionResp where
  card_challenge : List Nat
  card_cryptogram : List Nat
  deriving DecidableEq, Repr

/-- Embedding of `Session::new`, parameterized by the SCP03 derivation
(`Channel::new` plus `card_cryptogram`, external crypto: authentication
key and the two challenges to the locally derived card cryptogram) and by
the outcome of the subsequent `AuthenticateSession` exchange.  The
locally derived cryptogram is compared constant-time (`ct_eq`) with the
received one; a mismatch aborts with `AuthFailed` before any
authentication traffic, returning no session and no derived material. -/
def session_new (derive : List Nat → List Nat → List Nat → List Nat)
    (auth_key host_challenge : List Nat) (session_id : Nat)
    (resp : CreateSessionResp)
    (authResult : Except SessionErrorKind Unit) (now : Nat) :
    Except SessionErrorKind SessionState :=
  let card_cryptogram_local := derive auth_key host_challenge resp.card_challenge
  if ct_eq card_cryptogram_local resp.card_cryptogram then
    match authResult with
    | Except.ok () => Except.ok ⟨session_id, now⟩
    | Except.error e => Except.error e
  else Except.error SessionErrorKind.AuthFailed

/-- Client-level error kinds (`ClientErrorKind`). -/
inductive ClientErrorKind where
  | AuthFail
  | ConnectorError
  | ProtocolError
  | ResponseError
  | CreateFailed
  deriving DecidableEq, Repr

/-- A client error: kind plus display message (the `err!` macro). -/
structure ClientError where
  kind : ClientErrorKind
  msg : String
  deriving DecidableEq, Repr

/-- The client's view of a session; `isOpen` models `Session::is_open`
(the session module the client facade links against is not under `src/`;
per the spec a session is open until closed, timed out, or reset). -/
structure ClientSession where
  sid : Nat
  isOpen : Bool
  deriving DecidableEq, Repr

/-- The `Client` state: the optional session and the optional cached
credentials (`Credentials` are an authentication key id plus key). -/
structure ClientState where
  session : Option ClientSession
  credentials : Option Nat
  deriving DecidableEq, Repr

/-- Embedding of `Client::is_connected`: true iff a session is present
and open. -/
def ClientState.is_connected (c : ClientState) : Bool :=
  match c.session with
  | some s => s.isOpen
  | none => false

/-- Embedding of `Client::session`, parameterized by session opening
(`Session::open`, resolved through the connector): an open session is
returned as-is; otherwise the cached credentials are required — their
absence fails with `AuthFail` "session reconnection disabled" — and a
fresh session is opened and stored. -/
def ClientState.sessionStep
    (openSession : Nat → Except ClientError ClientSession)
    (c : ClientState) : Except ClientError (ClientSession × ClientState) :=
  if c.is_connected then
    match c.session with
    | some s => Except.ok (s, c)
    | none => Except.error ⟨ClientErrorKind.ProtocolError, "unreachable"⟩
  else
    match c.credentials with
    | none => Except.error ⟨ClientErrorKind.AuthFail, "session reconnection disabled"⟩
    | some creds =>
      match openSession creds with
      | Except.ok s => Except.ok (s, { c with session := some s })
      | Except.error e => Except.error e

/-- Embedding of `Client::open`: create the client with cached
credentials, connect (i.e. open the initial session), then clear the
credentials when `reconnect` was disabled. -/
def clientOpen (openSession : Nat → Except ClientError ClientSession)
    (credentials : Nat) (reconnect : Bool) : Except ClientError ClientState :=
  let c0 : ClientState := ⟨none, some credentials⟩
  match ClientState.sessionStep openSession c0 with
  | Except.error e => Except.error e
  | Except.ok (_, c1) =>
    Except.ok (if reconnect then c1 else { c1 with credentials := none })

/-- A session being lost (timed out or closed on the HSM side): the
client still holds the session object but it is no longer open. -/
def ClientState.loseSession (c : ClientState) : ClientState :=
  { c with session := c.session.map (fun s => { s with isOpen := false }) }

/-- Embedding of `Client::reset_device`: the `ResetDevice` send outcome
is only logged, never propagated; the session is unconditionally
invalidated and `Ok(())` returned. -/
def clientResetDevice (c : ClientState) (_sendResult : Except ClientError Unit) :
    Except ClientError Unit × ClientState :=
  (Except.ok (), { c with session := none })

/-- Maximum message size the RSASSA-PSS facade is supposed to accept
(`RSA_PSS_MAX_MESSAGE_SIZE`). -/
def RSA_PSS_MAX_MESSAGE_SIZE : Nat := 0xFFFF

/-- Modelled from the spec: the `ensure!` macro (the `client::error`
module is not under `src/`); per the spec it maps to a uniform
`Result`-returning guard that fails with the given error when its
condition is false and lets control continue when it is true. -/
def ensureGuard (cond : Bool) (e : ClientError) : Except ClientError Unit :=
  if cond then Except.ok () else Except.error e

/-- Embedding of the input-validation prefix of
`Client::sign_rsa_pss_sha256`, exactly as the source writes it:
`ensure!(data.len() > RSA_PSS_MAX_MESSAGE_SIZE, ProtocolError, "message
too large to be signed …")`.  An `ok` result means control reached the
hashing and `send_command` steps (the command is sent). -/
def sign_rsa_pss_sha256 (data : List Nat) : Except ClientError Unit :=
  match ensureGuard (decide (data.length > RSA_PSS_MAX_MESSAGE_SIZE))
      ⟨ClientErrorKind.ProtocolError, "message too large to be signed (max: 65535)"⟩ with
  | Except.error e => Except.error e
  | Except.ok () => Except.ok ()

/-- The `Echo` command the client builds (`EchoCommand`). -/
structure EchoCommand where
  message : List Nat
  deriving DecidableEq, Repr

/-- Embedding of `Client::ping`, parameterized by the echo round trip
(`send_command` through session and connector) and by the two instants
its latency measurement reads.  The request payload is the freshly
generated UUID string passed in as `uuid`; the response must equal the
request bytes exactly, a difference failing with `ResponseError`. -/
def clientPing (uuid : List Nat)
    (roundTrip : EchoCommand → Except ClientError (List Nat))
    (t0 t1 : Nat) : Except ClientError Nat :=
  match roundTrip ⟨uuid⟩ with
  | Except.error e => Except.error e
  | Except.ok response =>
    if uuid == response then Except.ok (t1 - t0)
    else Except.error ⟨ClientErrorKind.ResponseError, "echo response does not match request"⟩

/-- A device error surfaced through the session layer to the client
(`SessionError::ResponseError` wrapped as `ClientError`). -/
def deviceClientError (_k : HsmErrorKind) : ClientError :=
  ⟨ClientErrorKind.ResponseError, "HSM error"⟩

/-- End-to-end `Client::sign_hmac` against the mock HSM: the client
serializes `SignHmacCommand { key_id, data }` (key id big-endian followed
by the message), the simulator handles it, and the tag payload comes
back.  `none` models the simulator aborting. -/
def clientSignHmacMock (hmac : List Nat → List Nat → List Nat)
    (st : Objects) (key_id : Nat) (msg : List Nat) :
    Option (Except ClientError (List Nat)) :=
  match mock_sign_hmac hmac st (u16bytes key_id ++ msg) with
  | HResult.panicked _ => none
  | HResult.resp (RespMessage.success tagBytes) => some (Except.ok tagBytes)
  | HResult.resp (RespMessage.deviceError k) => some (Except.error (deviceClientError k))

/-- End-to-end `Client::verify_hmac` against the mock HSM: the client
serializes `VerifyHMACCommand { key_id, tag, data }` (key id, then tag
bytes, then message bytes — the simulator's serde quirk reads tag and
message as one field), the simulator responds with the verification byte,
and the client maps any result other than 1 to `ResponseError`
"HMAC verification failure".  `none` models the simulator aborting. -/
def clientVerifyHmacMock (hmac : List Nat → List Nat → List Nat)
    (st : Objects) (key_id : Nat) (msg tag : List Nat) :
    Option (Except ClientError Unit) :=
  match mock_verify_hmac hmac st (u16bytes key_id ++ (tag ++ msg)) with
  | HResult.panicked _ => none
  | HResult.resp (RespMessage.success payload) =>
    some (if payload = [1] then Except.ok ()
      else Except.error ⟨ClientErrorKind.ResponseError, "HMAC verification failure"⟩)
  | HResult.resp (RespMessage.deviceError k) => some (Except.error (deviceClientError k))

/-- Flip bit `i` of byte `j` of a byte string (used to state the
negative HMAC-verification scenario). -/
def flipByteBit (t : List Nat) (j i : Nat) : List Nat :=
  t.set j (t.getD j 0 ^^^ (2 ^ i))

/-! Helper lemmas shared by the claim theorems. -/

theorem beBytes_u16_roundtrip (k : Nat) (h : k < 65536) :
    beBytesToNat (u16bytes k) = k := by
  simp only [beBytesToNat, u16bytes, List.foldl]
  omega

theorem getD_set_self (l : List Nat) (j v : Nat) (h : j < l.length) :
    (l.set j v).getD j 0 = v := by
  induction l generalizing j with
  | nil => simp at h
  | cons a t ih =>
    cases j with
    | zero => simp [List.set, List.getD]
    | succ j =>
      simp only [List.set, List.getD, List.getElem?_cons_succ]
      exact ih j (by simpa using h)

theorem flipByteBit_ne (t : List Nat) (j i : Nat) (hj : j < t.length) :
    flipByteBit t j i ≠ t := by
  intro h
  have h1 : (flipByteBit t j i).getD j 0 = t.getD j 0 := by rw [h]
  have h2 : (flipByteBit t j i).getD j 0 = t.getD j 0 ^^^ 2 ^ i :=
    getD_set_self t j _ hj
  have h3 : t.getD j 0 ^^^ (t.getD j 0 ^^^ 2 ^ i) = t.getD j 0 ^^^ t.getD j 0 := by
    rw [← h2, h1]
  have h4 : (2 : Nat) ^ i = 0 := by
    rwa [Nat.xor_cancel_left, Nat.xor_self] at h3
  exact absurd h4 (Nat.pos_iff_ne_zero.mp (Nat.pos_pow_of_pos i (by norm_num)))

theorem flipByteBit_length (t : List Nat) (j i : Nat) :
    (flipByteBit t j i).length = t.length := by
  simp [flipByteBit]

theorem sign_rsa_pss_accepts_oversize (d : List Nat) (h : 65535 < d.length) :
    sign_rsa_pss_sha256 d = Except.ok () := by
  simp [sign_rsa_pss_sha256, ensureGuard, RSA_PSS_MAX_MESSAGE_SIZE, h]

/-- C1: the spec claims `sign_rsa_pss_sha256` rejects messages longer
than `RSA_PSS_MAX_MESSAGE_SIZE` (0xFFFF) and lets shorter ones through to
the send.  The source's guard is inverted — `ensure!` keeps the success
path only when `data.len() > RSA_PSS_MAX_MESSAGE_SIZE` — so the empty
message (and every message of at most 65535 bytes) is rejected with the
self-contradicting error "message too large to be signed", while a
65536-byte message passes validation and is sent. -/
theorem C1_sign_rsa_pss_guard_inverted :
    sign_rsa_pss_sha256 [] =
      Except.error ⟨ClientErrorKind.ProtocolError,
        "message too large to be signed (max: 65535)"⟩ ∧
    sign_rsa_pss_sha256 (List.replicate 65536 0) = Except.ok () := by
  constructor
  · rfl
  · exact sign_rsa_pss_accepts_oversize _ (by rw [List.length_replicate]; norm_num)

/-- C2 counterexample: on the one-byte command body `[0x00]` — which
fails to deserialize as `DeleteObjectCommand` — the simulator's
`delete_object` handler aborts (panics) instead of responding with device
error `InvalidCommand`, refuting both halves of the claim at this
input. -/
theorem C2_counterexample :
    (mock_delete_object [] [0]).1 =
      HResult.panicked "error parsing Code::DeleteObject" ∧
    (mock_delete_object [] [0]).1 ≠
      HResult.resp (RespMessage.deviceError HsmErrorKind.InvalidCommand) := by
  constructor
  · rfl
  · decide

/-- C2 (amended): on any command body that fails to deserialize as the
expected command struct, the Open-state handlers `delete_object`,
`import_wrapped` and `sign_eddsa` panic (the parse error reaches
`unwrap_or_else` with an aborting closure); the device error
`InvalidCommand` is reserved for semantic failures after a successful
parse. -/
theorem C2_parse_failure_aborts (st : Objects)
    (uw : Nat → List Nat → List Nat → Except String (ObjType × Nat × Objects))
    (edSign : List Nat → List Nat → List Nat) (d : List Nat) :
    (parseDeleteObject d = none →
      (mock_delete_object st d).1 =
        HResult.panicked "error parsing Code::DeleteObject") ∧
    (parseImportWrapped d = none →
      (mock_import_wrapped uw st d).1 =
        HResult.panicked "error parsing Code::ImportWrapped") ∧
    (parseSignEddsa d = none →
      mock_sign_eddsa edSign st d =
        HResult.panicked "error parsing Code::SignDataEdDSA") := by
  refine ⟨fun h => ?_, fun h => ?_, fun h => ?_⟩ <;>
    simp [mock_delete_object, mock_import_wrapped, mock_sign_eddsa, h]

/-- Witness for C2: the three handlers evaluated on the unparsable body
`[0x00]` all abort. -/
theorem C2_parse_failure_aborts_witness :
    (mock_delete_object [] [0]).1 =
      HResult.panicked "error parsing Code::DeleteObject" ∧
    (mock_import_wrapped (fun _ _ _ => Except.error "x") [] [0]).1 =
      HResult.panicked "error parsing Code::ImportWrapped" ∧
    mock_sign_eddsa (fun _ _ => []) [] [0] =
      HResult.panicked "error parsing Code::SignDataEdDSA" := by
  have h := C2_parse_failure_aborts [] (fun _ _ _ => Except.error "x") (fun _ _ => []) [0]
  exact ⟨h.1 (by decide), h.2.1 (by decide), h.2.2 (by decide)⟩

/-- C3 counterexample: with an object `(id = 5, AsymmetricKey)` already
stored, a `GenerateAsymmetricKey` request for id 5 is answered with the
success response echoing id 5 — not with device error `InvalidData`; and
a request for id 0 on an empty store is answered with id 0, although the
(spec-modelled) store chose the fresh id 1. -/
theorem C3_counterexample :
    (mock_gen_asymmetric_key
        [⟨⟨5, ObjType.AsymmetricKey, 46, List.replicate 40 0, 1, 0, 0, 0⟩, Payload.other []⟩]
        ([0, 5] ++ List.replicate 40 0 ++ [0, 1] ++ List.replicate 8 0 ++ [46])).1 =
      HResult.resp (RespMessage.success [0, 5]) ∧
    (mock_gen_asymmetric_key
        [⟨⟨5, ObjType.AsymmetricKey, 46, List.replicate 40 0, 1, 0, 0, 0⟩, Payload.other []⟩]
        ([0, 5] ++ List.replicate 40 0 ++ [0, 1] ++ List.replicate 8 0 ++ [46])).1 ≠
      HResult.resp (RespMessage.deviceError HsmErrorKind.InvalidData) ∧
    (mock_gen_asymmetric_key []
        ([0, 0] ++ List.replicate 40 0 ++ [0, 1] ++ List.replicate 8 0 ++ [46])).1 =
      HResult.resp (RespMessage.success [0, 0]) ∧
    (Objects.generate [] 0 ObjType.AsymmetricKey 46 (List.replicate 40 0) 0 0
        1).toOption.map Prod.fst = some 1 := by
  exact ⟨by decide, by decide, by decide, by decide⟩

/-- C3 (amended): the `gen_asymmetric_key` and `gen_wrap_key` handlers
pass the requested id to the object store unchanged (the spec-modelled
store chooses a fresh id when the request id is 0 and rejects
`(id, type)` collisions internally), but the wire response
unconditionally echoes the requested id — reporting 0 when 0 was
requested — and the handlers never answer with device error
`InvalidData`. -/
theorem C3_creation_echoes_requested_id (st : Objects) (d : List Nat) :
    (∀ c, parseGenAsymmetricKey d = some c →
      (mock_gen_asymmetric_key st d).1 =
        HResult.resp (RespMessage.success (u16bytes c.key_id))) ∧
    (∀ c, parseGenWrapKey d = some c →
      (mock_gen_wrap_key st d).1 =
        HResult.resp (RespMessage.success (u16bytes c.params.key_id))) := by
  constructor
  · intro c h
    simp [mock_gen_asymmetric_key, h]
  · intro c h
    simp [mock_gen_wrap_key, h]

/-- Witness for C3: a concrete generate request for id 5 parses and the
response echoes id 5. -/
theorem C3_creation_echoes_requested_id_witness :
    (mock_gen_asymmetric_key []
        ([0, 5] ++ List.replicate 40 0 ++ [0, 1] ++ List.replicate 8 0 ++ [46])).1 =
      HResult.resp (RespMessage.success [0, 5]) := by
  have h := (C3_creation_echoes_requested_id []
    ([0, 5] ++ List.replicate 40 0 ++ [0, 1] ++ List.replicate 8 0 ++ [46])).1
    ⟨5, List.replicate 40 0, 1, 0, 46⟩ (by decide)
  simpa [u16bytes] using h

/-- C4: if the time since the last command exceeds
`SESSION_INACTIVITY_TIMEOUT - TIMEOUT_SKEW_INTERVAL` (30s − 1s), the
send fails with `TimeoutError`, leaves the session state untouched, and
never contacts the connector; the session is thereafter closed for use in
the behavioral sense (the source's `Session` carries no separate closed
flag): every later send on it — whatever the connector would answer —
also fails; and on every successful round trip the
`last_command_timestamp` is advanced to the current instant. -/
theorem C4_session_inactivity_timeout (s : SessionState) (now now2 ct ct2 : Nat)
    (conn conn2 : Option RespFrame)
    (h : s.last_command_timestamp + (SESSION_INACTIVITY_TIMEOUT - TIMEOUT_SKEW_INTERVAL) < now)
    (hm : now ≤ now2) :
    s.send_command now ct conn =
      ⟨Except.error SessionErrorKind.TimeoutError, s, false⟩ ∧
    (∀ r, (s.send_command now2 ct2 conn2).result ≠ Except.ok r) ∧
    (∀ t now3 ct3 c3 r, ((SessionState.send_command t now3 ct3 c3).result = Except.ok r) →
      (SessionState.send_command t now3 ct3 c3).session.last_command_timestamp = now3) := by
  have h1 : SESSION_INACTIVITY_TIMEOUT - TIMEOUT_SKEW_INTERVAL
      < now - s.last_command_timestamp := by
    simp only [SESSION_INACTIVITY_TIMEOUT, TIMEOUT_SKEW_INTERVAL] at h ⊢
    omega
  have h2 : SESSION_INACTIVITY_TIMEOUT - TIMEOUT_SKEW_INTERVAL
      < now2 - s.last_command_timestamp := by
    simp only [SESSION_INACTIVITY_TIMEOUT, TIMEOUT_SKEW_INTERVAL] at h ⊢
    omega
  refine ⟨?_, ?_, ?_⟩
  · simp [SessionState.send_command, h1]
  · intro r
    simp [SessionState.send_command, h2]
  · intro t now3 ct3 c3 r hr
    unfold SessionState.send_command at hr ⊢
    by_cases htime : SESSION_INACTIVITY_TIMEOUT - TIMEOUT_SKEW_INTERVAL
        < now3 - t.last_command_timestamp
    · simp [htime] at hr
    · cases c3 with
      | none => simp [htime] at hr
      | some response =>
        by_cases herr : response.is_err
        · simp [htime, herr] at hr
        · by_cases hcmd : response.command = ct3
          · simp [htime, herr, hcmd]
          · simp [htime, herr, hcmd] at hr

/-- Witness for C4: a session whose last command was at instant 0,
probed at instant 29001 ms, times out without contacting the
connector. -/
theorem C4_session_inactivity_timeout_witness :
    SessionState.send_command ⟨1, 0⟩ 29001 3 none =
      ⟨Except.error SessionErrorKind.TimeoutError, ⟨1, 0⟩, false⟩ :=
  (C4_session_inactivity_timeout ⟨1, 0⟩ 29001 29001 3 3 none none
    (by norm_num [SESSION_INACTIVITY_TIMEOUT, TIMEOUT_SKEW_INTERVAL]) (by norm_num)).1

/-- C5: during the session handshake the locally derived card cryptogram
is compared (through the constant-time comparison `ct_eq`) with the one
received from the HSM; a mismatch aborts with `AuthFailed` and returns no
session — whatever the later authentication exchange would have said —
and only on equality does the handshake proceed to the
`AuthenticateSession` step, whose outcome then decides the result. -/
theorem C5_card_cryptogram_check (derive : List Nat → List Nat → List Nat → List Nat)
    (auth_key host_challenge : List Nat) (session_id : Nat)
    (resp : CreateSessionResp) (authResult : Except SessionErrorKind Unit)
    (now : Nat) :
    (derive auth_key host_challenge resp.card_challenge ≠ resp.card_cryptogram →
      session_new derive auth_key host_challenge session_id resp authResult now =
        Except.error SessionErrorKind.AuthFailed) ∧
    (derive auth_key host_challenge resp.card_challenge = resp.card_cryptogram →
      session_new derive auth_key host_challenge session_id resp authResult now =
        authResult.map (fun _ => ⟨session_id, now⟩)) := by
  constructor
  · intro hne
    simp [session_new, ct_eq, hne]
  · intro heq
    cases authResult with
    | ok u => cases u; simp [session_new, ct_eq, heq, Except.map]
    | error e => simp [session_new, ct_eq, heq, Except.map]

/-- Witness for C5: a concrete cryptogram mismatch aborts with
`AuthFailed` even though authentication would have succeeded, and the
matching case returns the session. -/
theorem C5_card_cryptogram_check_witness :
    session_new (fun _ _ _ => [1]) [] [] 7 ⟨[], [0]⟩ (Except.ok ()) 5 =
      Except.error SessionErrorKind.AuthFailed ∧
    session_new (fun _ _ _ => [1]) [] [] 7 ⟨[], [1]⟩ (Except.ok ()) 5 =
      Except.ok ⟨7, 5⟩ := by
  constructor
  · exact (C5_card_cryptogram_check (fun _ _ _ => [1]) [] [] 7 ⟨[], [0]⟩
      (Except.ok ()) 5).1 (by decide)
  · exact (C5_card_cryptogram_check (fun _ _ _ => [1]) [] [] 7 ⟨[], [1]⟩
      (Except.ok ()) 5).2 (by decide)

/-- C6: `reset_device` returns `Ok(())` no matter how the `ResetDevice`
send went — including on an I/O or any other error — and unconditionally
drops the session, so `is_connected` is false immediately afterwards. -/
theorem C6_reset_device_invalidates (c : ClientState)
    (sendResult : Except ClientError Unit) :
    (clientResetDevice c sendResult).1 = Except.ok () ∧
    (clientResetDevice c sendResult).2.is_connected = false := by
  exact ⟨rfl, rfl⟩

/-- C7: opening a client with `reconnect = false` clears the cached
credentials after the initial connect, and once the session is lost a
later session request fails with `AuthFail` "session reconnection
disabled" instead of opening a new session; with `reconnect = true` the
credentials are kept and the lost session is transparently replaced by a
newly opened one. -/
theorem C7_reconnect_policy (openSession : Nat → Except ClientError ClientSession)
    (creds : Nat) (s : ClientSession) (h : openSession creds = Except.ok s) :
    clientOpen openSession creds false = Except.ok ⟨some s, none⟩ ∧
    ClientState.sessionStep openSession (ClientState.loseSession ⟨some s, none⟩) =
      Except.error ⟨ClientErrorKind.AuthFail, "session reconnection disabled"⟩ ∧
    clientOpen openSession creds true = Except.ok ⟨some s, some creds⟩ ∧
    ClientState.sessionStep openSession (ClientState.loseSession ⟨some s, some creds⟩) =
      Except.ok (s, ⟨some s, some creds⟩) := by
  refine ⟨?_, ?_, ?_, ?_⟩
  · simp [clientOpen, ClientState.sessionStep, ClientState.is_connected, h]
  · simp [ClientState.sessionStep, ClientState.loseSession, ClientState.is_connected]
  · simp [clientOpen, ClientState.sessionStep, ClientState.is_connected, h]
  · simp [ClientState.sessionStep, ClientState.loseSession, ClientState.is_connected, h]

/-- Witness for C7: with a connector that always opens session 0, the
four reconnect-policy facts hold concretely. -/
theorem C7_reconnect_policy_witness :
    clientOpen (fun _ => Except.ok ⟨0, true⟩) 1 false = Except.ok ⟨some ⟨0, true⟩, none⟩ ∧
    ClientState.sessionStep (fun _ => Except.ok ⟨0, true⟩)
        (ClientState.loseSession ⟨some ⟨0, true⟩, none⟩) =
      Except.error ⟨ClientErrorKind.AuthFail, "session reconnection disabled"⟩ ∧
    clientOpen (fun _ => Except.ok ⟨0, true⟩) 1 true = Except.ok ⟨some ⟨0, true⟩, some 1⟩ ∧
    ClientState.sessionStep (fun _ => Except.ok ⟨0, true⟩)
        (ClientState.loseSession ⟨some ⟨0, true⟩, some 1⟩) =
      Except.ok (⟨0, true⟩, ⟨some ⟨0, true⟩, some 1⟩) :=
  C7_reconnect_policy (fun _ => Except.ok ⟨0, true⟩) 1 ⟨0, true⟩ rfl

theorem parseSignHmac_wire (k : Nat) (hk : k < 65536) (msg : List Nat) :
    parseSignHmac (u16bytes k ++ msg) = some ⟨k, msg⟩ := by
  have h := beBytes_u16_roundtrip k hk
  simp only [u16bytes, List.cons_append, List.nil_append, parseSignHmac]
  simp only [u16bytes] at h
  rw [h]

theorem parseVerifyHmac_wire (k : Nat) (hk : k < 65536) (rest : List Nat) :
    parseVerifyHmac (u16bytes k ++ rest) = some ⟨k, rest⟩ := by
  have h := beBytes_u16_roundtrip k hk
  simp only [u16bytes, List.cons_append, List.nil_append, parseVerifyHmac]
  simp only [u16bytes] at h
  rw [h]

/-- C8: against the mock HSM, for an HMAC-SHA256 key in the store,
`sign_hmac` returns the (32-byte) tag of the message, `verify_hmac` with
exactly that tag returns `Ok`, and `verify_hmac` with the tag altered in
any single bit (of any of its 32 bytes) returns the `ResponseError`
"HMAC verification failure" — the simulator recomputes the tag, compares
it with the received one through the constant-time comparison, and the
client maps any verification byte other than 1 to the error. -/
theorem C8_hmac_sign_verify (hmac : List Nat → List Nat → List Nat)
    (st : Objects) (key_id : Nat) (msg key : List Nat) (obj : HsmObject)
    (hk : key_id < 65536)
    (hget : Objects.get st key_id ObjType.HmacKey = some obj)
    (hpay : obj.payload = Payload.hmacKey HmacAlg.SHA256 key)
    (hlen : (hmac key msg).length = 32) :
    clientSignHmacMock hmac st key_id msg = some (Except.ok (hmac key msg)) ∧
    clientVerifyHmacMock hmac st key_id msg (hmac key msg) = some (Except.ok ()) ∧
    (∀ j i, j < 32 →
      clientVerifyHmacMock hmac st key_id msg (flipByteBit (hmac key msg) j i) =
        some (Except.error
          ⟨ClientErrorKind.ResponseError, "HMAC verification failure"⟩)) := by
  refine ⟨?_, ?_, ?_⟩
  · have hparse := parseSignHmac_wire key_id hk msg
    simp [clientSignHmacMock, mock_sign_hmac, hparse, hget, hpay]
  · have hparse := parseVerifyHmac_wire key_id hk (hmac key msg ++ msg)
    have hdrop : (hmac key msg ++ msg).drop 32 = msg := by
      rw [← hlen]; exact List.drop_left _ _
    have htake : (hmac key msg ++ msg).take 32 = hmac key msg := by
      rw [← hlen]; exact List.take_left _ _
    have hlong : ¬((hmac key msg).length + msg.length < 32) := by
      rw [hlen]; omega
    simp [clientVerifyHmacMock, mock_verify_hmac, hparse, hget, hpay, hlong,
      hdrop, htake, ct_eq]
  · intro j i hj
    have hflen : (flipByteBit (hmac key msg) j i).length = 32 := by
      rw [flipByteBit_length, hlen]
    have hparse := parseVerifyHmac_wire key_id hk (flipByteBit (hmac key msg) j i ++ msg)
    have hdrop : (flipByteBit (hmac key msg) j i ++ msg).drop 32 = msg := by
      rw [← hflen]; exact List.drop_left _ _
    have htake : (flipByteBit (hmac key msg) j i ++ msg).take 32 =
        flipByteBit (hmac key msg) j i := by
      rw [← hflen]; exact List.take_left _ _
    have hlong : ¬((flipByteBit (hmac key msg) j i).length + msg.length < 32) := by
      rw [hflen]; omega
    have hne : hmac key msg ≠ flipByteBit (hmac key msg) j i :=
      fun he => flipByteBit_ne (hmac key msg) j i (by rw [hlen]; exact hj) he.symm
    simp [clientVerifyHmacMock, mock_verify_hmac, hparse, hget, hpay, hlong,
      hdrop, htake, ct_eq, hne]

/-- Witness for C8: a concrete store holding an HMAC-SHA256 key at id
200, with the HMAC primitive instantiated by a constant 32-byte function:
signing yields the tag, verification of the tag succeeds, and flipping
bit 0 of byte 0 of the tag is rejected. -/
theorem C8_hmac_sign_verify_witness :
    clientSignHmacMock (fun _ _ => List.replicate 32 0)
        [⟨⟨200, ObjType.HmacKey, 19, [], 1, 0, 0, 0⟩,
          Payload.hmacKey HmacAlg.SHA256 [11]⟩] 200 [1, 2] =
      some (Except.ok (List.replicate 32 0)) ∧
    clientVerifyHmacMock (fun _ _ => List.replicate 32 0)
        [⟨⟨200, ObjType.HmacKey, 19, [], 1, 0, 0, 0⟩,
          Payload.hmacKey HmacAlg.SHA256 [11]⟩] 200 [1, 2] (List.replicate 32 0) =
      some (Except.ok ()) ∧
    clientVerifyHmacMock (fun _ _ => List.replicate 32 0)
        [⟨⟨200, ObjType.HmacKey, 19, [], 1, 0, 0, 0⟩,
          Payload.hmacKey HmacAlg.SHA256 [11]⟩] 200 [1, 2]
        (flipByteBit (List.replicate 32 0) 0 0) =
      some (Except.error
        ⟨ClientErrorKind.ResponseError, "HMAC verification failure"⟩) := by
  have h := C8_hmac_sign_verify (fun _ _ => List.replicate 32 0)
    [⟨⟨200, ObjType.HmacKey, 19, [], 1, 0, 0, 0⟩, Payload.hmacKey HmacAlg.SHA256 [11]⟩]
    200 [1, 2] [11] ⟨⟨200, ObjType.HmacKey, 19, [], 1, 0, 0, 0⟩,
      Payload.hmacKey HmacAlg.SHA256 [11]⟩
    (by norm_num) (by decide) rfl (by simp)
  exact ⟨h.1, h.2.1, h.2.2 0 0 (by norm_num)⟩

/-- C9: `ping` sends an `Echo` command whose payload is the freshly
generated UUID string; it returns `Ok` with the measured latency exactly
when the echoed bytes equal the request bytes, and an echoed response
differing from the request yields a `ResponseError`; composed with the
mock HSM's `echo` handler — which returns the command data verbatim — the
ping always succeeds. -/
theorem C9_ping_echo (uuid : List Nat)
    (roundTrip : EchoCommand → Except ClientError (List Nat)) (t0 t1 : Nat) :
    (roundTrip ⟨uuid⟩ = Except.ok uuid →
      clientPing uuid roundTrip t0 t1 = Except.ok (t1 - t0)) ∧
    (∀ response, roundTrip ⟨uuid⟩ = Except.ok response → response ≠ uuid →
      clientPing uuid roundTrip t0 t1 =
        Except.error ⟨ClientErrorKind.ResponseError,
          "echo response does not match request"⟩) ∧
    (∀ d, clientPing uuid roundTrip t0 t1 = Except.ok d →
      roundTrip ⟨uuid⟩ = Except.ok uuid ∧ d = t1 - t0) ∧
    clientPing uuid
      (fun c => match mock_echo c.message with
        | RespMessage.success dta => Except.ok dta
        | RespMessage.deviceError _ =>
          Except.error ⟨ClientErrorKind.ResponseError, "HSM error"⟩) t0 t1 =
      Except.ok (t1 - t0) := by
  refine ⟨?_, ?_, ?_, ?_⟩
  · intro h
    simp [clientPing, h]
  · intro response h hne
    have : uuid ≠ response := fun he => hne he.symm
    simp [clientPing, h, this]
  · intro d hd
    unfold clientPing at hd
    cases hrt : roundTrip ⟨uuid⟩ with
    | error e => rw [hrt] at hd; simp at hd
    | ok response =>
      rw [hrt] at hd
      by_cases he : uuid = response
      · subst he
        simp at hd
        exact ⟨rfl, by omega⟩
      · have hb : (uuid == response) = false := beq_eq_false_iff_ne.mpr he
        simp [hb] at hd
  · simp [clientPing, mock_echo]

/-- Witness for C9: pinging with a concrete UUID through a faithful echo
round trip succeeds and returns the latency; the same ping through a
corrupting round trip fails with `ResponseError`. -/
theorem C9_ping_echo_witness :
    clientPing [1, 2, 3] (fun c => Except.ok c.message) 2 5 = Except.ok 3 ∧
    clientPing [1, 2, 3] (fun _ => Except.ok [9]) 2 5 =
      Except.error ⟨ClientErrorKind.ResponseError,
        "echo response does not match request"⟩ := by
  constructor
  · exact (C9_ping_echo [1, 2, 3] (fun c => Except.ok c.message) 2 5).1 rfl
  · exact (C9_ping_echo [1, 2, 3] (fun _ => Except.ok [9]) 2 5).2.1 [9] rfl (by decide)

theorem isEmpty_filter_cond (l : List ObjFilter) (p : ObjFilter → Bool) :
    (if l.isEmpty then true else l.all p) = l.all p := by
  cases l <;> simp

/-- C10: an entry appears in the mock HSM's `ListObjects` response
exactly when some stored object yields it and — unless the filter list is
empty, in which case every stored object is listed — the object satisfies
every filter simultaneously; and the handler returns the object store
unchanged. -/
theorem C10_list_objects (st : Objects) (filters : List ObjFilter)
    (e : ListObjectsEntry) :
    (e ∈ (mock_list_objects st filters).1 ↔
      ∃ o, o ∈ st ∧ e = entryOfObject o ∧
        (filters = [] ∨ ∀ f ∈ filters, filterMatches o f = true)) ∧
    (mock_list_objects st filters).2 = st := by
  constructor
  · simp only [mock_list_objects, isEmpty_filter_cond, List.mem_map, List.mem_filter]
    constructor
    · rintro ⟨o, ⟨ho, hall⟩, rfl⟩
      exact ⟨o, ho, rfl, Or.inr (fun f hf => (List.all_eq_true.mp hall) f hf)⟩
    · rintro ⟨o, ho, rfl, hcond⟩
      refine ⟨o, ⟨ho, List.all_eq_true.mpr ?_⟩, rfl⟩
      rcases hcond with rfl | hc
      · intro f hf
        simp at hf
      · exact hc
  · rfl

end Yubihsm
